import Mathlib

/-!
Verification development for the pandas-mcp-server code-execution core.

The development shallowly embeds the functions of `core/config.py`,
`core/execution.py`, `core/validation.py` and the `run_pandas_code_tool`
entry point of `server.py`.  Python dictionaries returned to the caller are
modelled by the `PyVal` type; the host-interpreter operations that cannot be
embedded (byte-compilation of a script, execution of the compiled script,
pandas values) are parameters of the model, collected in `ScriptSem`.
-/

/-- A Python value as it appears in the JSON-like response dictionaries
(`None`, booleans, strings, lists, string-keyed dicts). -/
inductive PyVal where
  | vnone : PyVal
  | vbool (b : Bool) : PyVal
  | vstr (s : String) : PyVal
  | vlist (xs : List PyVal) : PyVal
  | vdict (entries : List (String × PyVal)) : PyVal

/-- Dictionary lookup: `d[k]` as an `Option`, `none` when the value is not a
dict or the key is absent. -/
def PyVal.lookup (v : PyVal) (k : String) : Option PyVal :=
  match v with
  | PyVal.vdict es => es.lookup k
  | _ => none

/-- The list of top-level keys of a response dictionary. -/
def PyVal.keys : PyVal → List String
  | PyVal.vdict es => es.map Prod.fst
  | _ => []

/-- A pandas DataFrame (a Series is analogous): named columns, a list of rows
(cells rendered as strings; cell contents are irrelevant to the claims), and
the value of `memory_usage(deep=True).sum()` in bytes.  `memBytes` models the
footprint of the original value; the harness never reads the footprint of a
value again after truncating it. -/
structure Frame where
  cols : List String
  rows : List (List String)
  memBytes : Nat

/-- `df.head(n)`: the first `n` rows. -/
def Frame.head (f : Frame) (n : Nat) : Frame :=
  { f with rows := f.rows.take n }

/-- `df.to_dict()`: a dict keyed by column name, each column a dict keyed by
the (default, positional) index label. -/
def Frame.toDict (f : Frame) : PyVal :=
  PyVal.vdict (f.cols.enum.map (fun p =>
    (p.2, PyVal.vdict (f.rows.enum.map (fun q =>
      (toString q.1, PyVal.vstr ((q.2.getD p.1 ""))))))))

/-- The value bound to `result` in the execution namespace, classified the way
`run_pandas_code` classifies it: `None`, a DataFrame/Series, a plain dict, or
anything else (carried as its `str()` rendering). -/
inductive PdValue where
  | pynone : PdValue
  | table (f : Frame) : PdValue
  | mapping (entries : List (String × PyVal)) : PdValue
  | other (reprStr : String) : PdValue

/-- Outcome of `exec(code, \x7b\x7d, local_vars)`: either an uncaught exception
(message, formatted traceback, stdout captured so far) or normal completion
(the `result` binding of the final namespace, if any, and the captured
stdout). -/
inductive ExecOutcome where
  | raises (msg : String) (tb : String) (out : String) : ExecOutcome
  | finishes (resultBinding : Option PdValue) (out : String) : ExecOutcome

/-- Host-interpreter semantics of one script, supplied as a parameter of the
model: the outcome of `compile(code, ..., ..)` (`some (str(e), traceback)` when
compilation raises) and, when compilation succeeds, the outcome of `exec`. -/
structure ScriptSem where
  compileError : Option (String × String)
  run : ExecOutcome

/-- Python `str.lower()`, as a structural map over the characters. -/
def pyLower (s : String) : String :=
  String.mk (s.data.map Char.toLower)

/-- Python `str.split(c)` for a single separator character: the list of
chunks between occurrences of `c` (an empty string splits to `[""]`, a
trailing separator yields a trailing empty chunk). -/
def splitOnChar (c : Char) : List Char → List (List Char)
  | [] => [[]]
  | x :: xs =>
      if x = c then [] :: splitOnChar c xs
      else
        match splitOnChar c xs with
        | [] => [[x]]
        | y :: ys => (x :: y) :: ys

/-- `code.split('\n')` over strings. -/
def pySplitLines (s : String) : List String :=
  (splitOnChar (Char.ofNat 10) s.data).map String.mk

/-- Leading-whitespace removal, the building block of `str.strip()`. -/
def dropLeadingWS : List Char → List Char
  | [] => []
  | c :: cs => if c.isWhitespace then dropLeadingWS cs else c :: cs

/-- Python `str.strip()` with no argument: remove leading and trailing
whitespace. -/
def pyStrip (s : String) : String :=
  String.mk ((dropLeadingWS ((dropLeadingWS s.data).reverse)).reverse)

/-- `config.get_env_bool`: parse a boolean from the environment, modelled over
an explicit environment `getenv : String → Option String`. -/
def get_env_bool (getenv : String → Option String) (env_var : String)
    (default : Bool) : Bool :=
  let value := pyLower ((getenv env_var).getD "")
  if value = "true" ∨ value = "1" ∨ value = "yes" ∨ value = "on" then true
  else if value = "false" ∨ value = "0" ∨ value = "no" ∨ value = "off" then false
  else default

/-- `config.get_env_list`: comma-separated list from the environment, falling
back to `default` when the variable is unset or empty. -/
def get_env_list (getenv : String → Option String) (env_var : String)
    (default : List String) : List String :=
  let value := (getenv env_var).getD ""
  if value = "" then default
  else ((value.splitOn ",").map String.trim).filter (fun s => s ≠ "")

/-- `config.DEFAULT_BLACKLIST` (note: the source lists the pattern
"eval(" twice). -/
def DEFAULT_BLACKLIST : List String :=
  ["os.", "sys.", "subprocess.", "open(", "exec(", "eval(",
   "import os", "import sys", "document.", "window.", "XMLHttpRequest",
   "fetch(", "eval(", "Function(", "script", "javascript:"]

/-- `config.BLACKLIST = get_env_list('PANDAS_MCP_BLACKLIST', DEFAULT_BLACKLIST)`. -/
def BLACKLIST (getenv : String → Option String) : List String :=
  get_env_list getenv "PANDAS_MCP_BLACKLIST" DEFAULT_BLACKLIST

/-- `config.ENABLE_CODE_EXECUTION = get_env_bool('PANDAS_MCP_ENABLE_CODE_EXECUTION', True)`. -/
def ENABLE_CODE_EXECUTION (getenv : String → Option String) : Bool :=
  get_env_bool getenv "PANDAS_MCP_ENABLE_CODE_EXECUTION" true

/-- The `reason_map` literal of `execution.get_forbidden_reason`. -/
def reason_map : List (String × String) :=
  [("os.", "Operating system access can compromise file system security"),
   ("sys.", "System module access can allow unsafe system operations"),
   ("subprocess.", "Subprocess execution can run arbitrary commands"),
   ("open(", "Direct file access bypasses pandas security controls"),
   ("exec(", "Dynamic code execution can run arbitrary code"),
   ("eval(", "Dynamic evaluation can execute arbitrary expressions"),
   ("import os", "Direct OS module import bypasses security controls"),
   ("import sys", "Direct system module import bypasses security controls"),
   ("document.", "DOM access is not relevant for pandas data analysis"),
   ("window.", "Browser window access is not relevant for pandas data analysis"),
   ("XMLHttpRequest", "Network requests are not relevant for pandas data analysis"),
   ("fetch(", "Network requests are not relevant for pandas data analysis"),
   ("Function(", "Dynamic function creation can execute arbitrary code"),
   ("script", "Script tags are not relevant for pandas data analysis"),
   ("javascript:", "JavaScript execution is not relevant for pandas data analysis")]

/-- `execution.get_forbidden_reason`. -/
def get_forbidden_reason (forbidden_op : String) : String :=
  (reason_map.lookup forbidden_op).getD "This operation is forbidden for security reasons"

/-- Containment of `pat` as a contiguous run of `l`, by scanning every
suffix. -/
def charsContains (pat : List Char) : List Char → Bool
  | [] => pat.isEmpty
  | c :: cs => pat.isPrefixOf (c :: cs) || charsContains pat cs

/-- Python substring test `pat in s` (exact, case-sensitive containment). -/
def strContains (s pat : String) : Bool :=
  charsContains pat.data s.data

/-- `execution.run_pandas_code`, parameterized by the loaded `BLACKLIST` and by
the host-interpreter semantics `sem` of the submitted script.  The body follows
the source line by line:
1. scan the blacklist, first match returns the SECURITY_VIOLATION dict;
2. `compile`, a failure returns the (nested) code-error dict with the still
   empty stdout buffer;
3. `exec`, an uncaught exception returns the (nested) error dict with partial
   stdout;
4. intermediate variables other than `result`/`pd` are dropped (not modelled:
   only the `result` binding is tracked), then `local_vars.get('result', None)`
   is tested against `None`, yielding the missing-result error dict;
5. a DataFrame/Series whose footprint exceeds 1e8 bytes is truncated with
   `head(100)`, the value is rendered, and the success dict is returned.
The final `except`/`finally` of the source (formatting failures, stdout
restoration) is unreachable here because the rendering operations of step 5
are total in the model. -/
def run_pandas_code (blacklist : List String) (code : String)
    (sem : ScriptSem) : PyVal :=
  match blacklist.find? (fun forbidden => strContains code forbidden) with
  | some forbidden =>
      let lines := pySplitLines code
      let forbidden_lines := lines.enum.filterMap (fun p =>
        if strContains p.2 forbidden then
          some ("Line " ++ toString (p.1 + 1) ++ ": " ++ pyStrip p.2)
        else none)
      let error_details := PyVal.vdict
        [("forbidden_operation", PyVal.vstr forbidden),
         ("reason", PyVal.vstr (get_forbidden_reason forbidden)),
         ("locations", PyVal.vlist (forbidden_lines.map PyVal.vstr)),
         ("all_forbidden_operations", PyVal.vlist (blacklist.map PyVal.vstr))]
      PyVal.vdict
        [("content", PyVal.vlist []),
         ("isError", PyVal.vbool true),
         ("error_type", PyVal.vstr "SECURITY_VIOLATION"),
         ("message", PyVal.vstr ("Forbidden operation detected: " ++ forbidden)),
         ("details", error_details),
         ("solution", PyVal.vstr ("Remove \x27" ++ forbidden ++
           "\x27 from your code. Use pandas operations instead."))]
  | none =>
    match sem.compileError with
    | some ct =>
        PyVal.vdict
          [("content", PyVal.vlist []),
           ("error", PyVal.vdict
             [("isError", PyVal.vbool true),
              ("message", PyVal.vstr ("Code error: " ++ ct.1)),
              ("traceback", PyVal.vstr ct.2),
              ("output", PyVal.vstr "")])]
    | none =>
      match sem.run with
      | ExecOutcome.raises msg tb out =>
          PyVal.vdict
            [("content", PyVal.vlist []),
             ("error", PyVal.vdict
               [("isError", PyVal.vbool true),
                ("message", PyVal.vstr msg),
                ("traceback", PyVal.vstr tb),
                ("output", PyVal.vstr out)])]
      | ExecOutcome.finishes resultBinding out =>
          match resultBinding.getD PdValue.pynone with
          | PdValue.pynone =>
              PyVal.vdict
                [("content", PyVal.vlist []),
                 ("isError", PyVal.vbool true),
                 ("message", PyVal.vstr "No \x27result\x27 variable found in code"),
                 ("output", PyVal.vstr out)]
          | r =>
              let r' := match r with
                | PdValue.table f =>
                    if f.memBytes > 100000000 then PdValue.table (f.head 100)
                    else PdValue.table f
                | x => x
              let content : PyVal := match r' with
                | PdValue.table f => f.toDict
                | PdValue.mapping es => PyVal.vdict es
                | PdValue.other s => PyVal.vstr s
                | PdValue.pynone => PyVal.vstr "None"
              PyVal.vdict
                [("content", match content with
                   | PyVal.vnone => PyVal.vlist []
                   | c => PyVal.vlist [c]),
                 ("isError", PyVal.vbool false)]

/-- `server.run_pandas_code_tool`: the MCP entry point delegates directly to
`run_pandas_code`; it consults no feature flag. -/
def run_pandas_code_tool (blacklist : List String) (code : String)
    (sem : ScriptSem) : PyVal :=
  run_pandas_code blacklist code sem

/-- `validation.validate_pandas_code` (the `isinstance` guard is subsumed by
typing `code` as a string; `compile` is the same host operation as in the
harness, here only a `SyntaxError` is caught). -/
def validate_pandas_code (code : String) (sem : ScriptSem) : PyVal :=
  if code = "" then
    PyVal.vdict [("valid", PyVal.vbool false),
                 ("error", PyVal.vstr "Code cannot be empty")]
  else if code.length > 100000 then
    PyVal.vdict [("valid", PyVal.vbool false),
                 ("error", PyVal.vstr "Code exceeds maximum length of 100KB")]
  else
    match sem.compileError with
    | some ct =>
        PyVal.vdict [("valid", PyVal.vbool false),
                     ("error", PyVal.vstr ("Syntax error in code: " ++ ct.1))]
    | none => PyVal.vdict [("valid", PyVal.vbool true)]

/-! ## Helper lemmas -/

theorem charsContains_iff (pat : List Char) (l : List Char) :
    charsContains pat l = true ↔ pat <:+: l := by
  induction l with
  | nil => simp [charsContains, List.isEmpty_iff]
  | cons c cs ih =>
      simp [charsContains, List.infix_cons_iff, ih, List.isPrefixOf_iff_prefix]

theorem strContains_iff (s : String) (pat : String) :
    strContains s pat = true ↔ pat.data <:+: s.data :=
  charsContains_iff pat.data s.data

theorem run_pandas_code_of_find_some (blacklist : List String) (code : String)
    (sem : ScriptSem) (p : String)
    (h : blacklist.find? (fun forbidden => strContains code forbidden) = some p) :
    run_pandas_code blacklist code sem = PyVal.vdict
      [("content", PyVal.vlist []),
       ("isError", PyVal.vbool true),
       ("error_type", PyVal.vstr "SECURITY_VIOLATION"),
       ("message", PyVal.vstr ("Forbidden operation detected: " ++ p)),
       ("details", PyVal.vdict
         [("forbidden_operation", PyVal.vstr p),
          ("reason", PyVal.vstr (get_forbidden_reason p)),
          ("locations", PyVal.vlist
            (((pySplitLines code).enum.filterMap (fun q =>
              if strContains q.2 p then
                some ("Line " ++ toString (q.1 + 1) ++ ": " ++ pyStrip q.2)
              else none)).map PyVal.vstr)),
          ("all_forbidden_operations", PyVal.vlist (blacklist.map PyVal.vstr))]),
       ("solution", PyVal.vstr ("Remove \x27" ++ p ++
         "\x27 from your code. Use pandas operations instead."))] := by
  unfold run_pandas_code
  rw [h]

theorem lookup_error_type_of_find_none (blacklist : List String) (code : String)
    (sem : ScriptSem)
    (h : blacklist.find? (fun forbidden => strContains code forbidden) = none) :
    (run_pandas_code blacklist code sem).lookup "error_type" = none := by
  obtain ⟨ce, rn⟩ := sem
  unfold run_pandas_code
  rw [h]
  cases ce with
  | some ct => rfl
  | none =>
      cases rn with
      | raises m t o => rfl
      | finishes ns o =>
          cases ns with
          | none => rfl
          | some r => cases r <;> rfl

theorem lookup_error_type_security (blacklist : List String) (code : String)
    (sem : ScriptSem) :
    (run_pandas_code blacklist code sem).lookup "error_type"
        = some (PyVal.vstr "SECURITY_VIOLATION")
      ↔ ∃ p ∈ blacklist, strContains code p = true := by
  constructor
  · intro h
    cases hq : blacklist.find? (fun forbidden => strContains code forbidden) with
    | none => rw [lookup_error_type_of_find_none blacklist code sem hq] at h; cases h
    | some q =>
        exact ⟨q, List.mem_of_find?_eq_some hq, List.find?_some hq⟩
  · rintro ⟨p, hmem, hsub⟩
    cases hq : blacklist.find? (fun forbidden => strContains code forbidden) with
    | none =>
        exact absurd hsub (by simpa using List.find?_eq_none.mp hq p hmem)
    | some q =>
        rw [run_pandas_code_of_find_some blacklist code sem q hq]
        rfl

/-! ## Claim C1 -/

/-- Claim C1, counterexample: the script "eval((" cannot be compiled (its
host semantics report a syntax error) and contains the configured forbidden
pattern "eval(", yet `run_pandas_code` reports the SECURITY_VIOLATION
response, not the syntax-error response: the pattern scan runs first. -/
theorem c1_counterexample :
    ("eval(" ∈ DEFAULT_BLACKLIST)
    ∧ strContains "eval((" "eval(" = true
    ∧ (ScriptSem.mk (some ("unexpected EOF while parsing", "TB"))
        (ExecOutcome.finishes none "")).compileError ≠ none
    ∧ (run_pandas_code DEFAULT_BLACKLIST "eval(("
        (ScriptSem.mk (some ("unexpected EOF while parsing", "TB"))
          (ExecOutcome.finishes none ""))).lookup "error_type"
        = some (PyVal.vstr "SECURITY_VIOLATION")
    ∧ (run_pandas_code DEFAULT_BLACKLIST "eval(("
        (ScriptSem.mk (some ("unexpected EOF while parsing", "TB"))
          (ExecOutcome.finishes none ""))).lookup "error" = none := by
  refine ⟨by decide, by decide, by simp, ?_, ?_⟩ <;> rfl

/-- Claim C1, amended: the forbidden-pattern scan runs before the syntax
check, so every script containing a configured forbidden pattern as a literal
substring receives the SecurityViolation response, regardless of whether the
script parses. -/
theorem c1_amended (blacklist : List String) (code : String) (sem : ScriptSem)
    (p : String) (hmem : p ∈ blacklist) (hsub : strContains code p = true) :
    (run_pandas_code blacklist code sem).lookup "error_type"
      = some (PyVal.vstr "SECURITY_VIOLATION") :=
  (lookup_error_type_security blacklist code sem).mpr ⟨p, hmem, hsub⟩

/-- Claim C1, witness for the amended theorem at the script "eval((" whose
compilation fails. -/
theorem c1_amended_witness :
    (run_pandas_code DEFAULT_BLACKLIST "eval(("
      (ScriptSem.mk (some ("unexpected EOF while parsing", "TB"))
        (ExecOutcome.finishes none ""))).lookup "error_type"
      = some (PyVal.vstr "SECURITY_VIOLATION") :=
  c1_amended DEFAULT_BLACKLIST "eval(("
    (ScriptSem.mk (some ("unexpected EOF while parsing", "TB"))
      (ExecOutcome.finishes none ""))
    "eval(" (by decide) (by decide)

/-! ## Claim C10 -/

/-- Claim C10: the forbidden-pattern check is exact case-sensitive substring
containment over the raw script text.  (a) The security rejection fires
exactly when some configured pattern occurs as a contiguous character run of
the script.  (b) A script containing a pattern only in a different letter
case ("EVAL(", "Import os") passes the scan and proceeds to execution,
returning the success response of its run.  (c) An occurrence embedded in a
longer identifier or in a comment is rejected. -/
theorem c10_substring_semantics :
    (∀ (blacklist : List String) (code : String) (sem : ScriptSem),
      (run_pandas_code blacklist code sem).lookup "error_type"
          = some (PyVal.vstr "SECURITY_VIOLATION")
        ↔ ∃ p ∈ blacklist, p.data <:+: code.data)
    ∧ run_pandas_code DEFAULT_BLACKLIST "EVAL(x)\nresult = 1"
        (ScriptSem.mk none (ExecOutcome.finishes (some (PdValue.other "1")) ""))
        = PyVal.vdict [("content", PyVal.vlist [PyVal.vstr "1"]),
                       ("isError", PyVal.vbool false)]
    ∧ run_pandas_code DEFAULT_BLACKLIST "Import os\nresult = 1"
        (ScriptSem.mk none (ExecOutcome.finishes (some (PdValue.other "1")) ""))
        = PyVal.vdict [("content", PyVal.vlist [PyVal.vstr "1"]),
                       ("isError", PyVal.vbool false)]
    ∧ (run_pandas_code DEFAULT_BLACKLIST "my_script_name = 1\nresult = 2"
        (ScriptSem.mk none (ExecOutcome.finishes (some (PdValue.other "2")) ""))).lookup
        "error_type" = some (PyVal.vstr "SECURITY_VIOLATION")
    ∧ (run_pandas_code DEFAULT_BLACKLIST "# avoid eval( here\nresult = 1"
        (ScriptSem.mk none (ExecOutcome.finishes (some (PdValue.other "1")) ""))).lookup
        "error_type" = some (PyVal.vstr "SECURITY_VIOLATION") := by
  refine ⟨?_, by rfl, by rfl, by rfl, by rfl⟩
  intro blacklist code sem
  rw [lookup_error_type_security blacklist code sem]
  exact exists_congr (fun p => and_congr_right (fun _ => strContains_iff code p))

/-! ## Claim C2 -/

/-- Claim C2, counterexample: the captured stdout is not part of every
response.  A successfully executed script that printed "hello" receives the
success response without any "output" entry, and a script rejected by the
security scan after printing nothing also receives a response without any
"output" entry. -/
theorem c2_counterexample :
    (run_pandas_code DEFAULT_BLACKLIST "result = 1"
      (ScriptSem.mk none
        (ExecOutcome.finishes (some (PdValue.other "1")) "hello\n"))).lookup
      "isError" = some (PyVal.vbool false)
    ∧ (run_pandas_code DEFAULT_BLACKLIST "result = 1"
      (ScriptSem.mk none
        (ExecOutcome.finishes (some (PdValue.other "1")) "hello\n"))).lookup
      "output" = none
    ∧ (run_pandas_code DEFAULT_BLACKLIST "import os\nresult = 1"
      (ScriptSem.mk none
        (ExecOutcome.finishes (some (PdValue.other "1")) ""))).lookup
      "error_type" = some (PyVal.vstr "SECURITY_VIOLATION")
    ∧ (run_pandas_code DEFAULT_BLACKLIST "import os\nresult = 1"
      (ScriptSem.mk none
        (ExecOutcome.finishes (some (PdValue.other "1")) ""))).lookup
      "output" = none := by
  exact ⟨rfl, rfl, rfl, rfl⟩

/-- Claim C2, amended: the captured stdout is returned only on the
compile-error, runtime-fault and missing-result paths — inside the nested
"error" object for the first two, at top level for the third; the success
and security-violation responses carry no "output" entry. -/
theorem c2_amended (blacklist : List String) (code : String) (sem : ScriptSem)
    (h : blacklist.find? (fun forbidden => strContains code forbidden) = none) :
    (∀ m t, sem.compileError = some (m, t) →
      ((run_pandas_code blacklist code sem).lookup "error").bind
        (fun e => e.lookup "output") = some (PyVal.vstr ""))
    ∧ (∀ m t o, sem.compileError = none → sem.run = ExecOutcome.raises m t o →
      ((run_pandas_code blacklist code sem).lookup "error").bind
        (fun e => e.lookup "output") = some (PyVal.vstr o))
    ∧ (∀ o, sem.compileError = none → sem.run = ExecOutcome.finishes none o →
      (run_pandas_code blacklist code sem).lookup "output" = some (PyVal.vstr o))
    ∧ (∀ o, sem.compileError = none →
        sem.run = ExecOutcome.finishes (some PdValue.pynone) o →
      (run_pandas_code blacklist code sem).lookup "output" = some (PyVal.vstr o)) := by
  refine ⟨?_, ?_, ?_, ?_⟩
  · intro m t hce
    unfold run_pandas_code
    rw [h, hce]
    rfl
  · intro m t o hce hrn
    unfold run_pandas_code
    rw [h, hce, hrn]
    rfl
  · intro o hce hrn
    unfold run_pandas_code
    rw [h, hce, hrn]
    rfl
  · intro o hce hrn
    unfold run_pandas_code
    rw [h, hce, hrn]
    rfl

/-- Claim C2, witness for the amended theorem: a runtime fault after partial
output "partial" returns that output inside the nested error object. -/
theorem c2_amended_witness :
    ((run_pandas_code DEFAULT_BLACKLIST "x = 1 / 0"
      (ScriptSem.mk none (ExecOutcome.raises "division by zero" "TB" "partial"))).lookup
      "error").bind (fun e => e.lookup "output") = some (PyVal.vstr "partial") :=
  (c2_amended DEFAULT_BLACKLIST "x = 1 / 0"
    (ScriptSem.mk none (ExecOutcome.raises "division by zero" "TB" "partial"))
    (by decide)).2.1 "division by zero" "TB" "partial" rfl rfl

/-! ## Claim C3 -/

theorem success_lookup_message (c : PyVal) :
    (PyVal.vdict [("content", c),
      ("isError", PyVal.vbool false)]).lookup "message" = none := rfl

/-- Claim C3, counterexample: a script that explicitly binds `result` to
`None` receives the missing-result error response, not a normalized Empty
success. -/
theorem c3_counterexample :
    run_pandas_code DEFAULT_BLACKLIST "result = None"
      (ScriptSem.mk none (ExecOutcome.finishes (some PdValue.pynone) ""))
      = PyVal.vdict
        [("content", PyVal.vlist []),
         ("isError", PyVal.vbool true),
         ("message", PyVal.vstr "No \x27result\x27 variable found in code"),
         ("output", PyVal.vstr "")]
    ∧ (run_pandas_code DEFAULT_BLACKLIST "result = None"
      (ScriptSem.mk none (ExecOutcome.finishes (some PdValue.pynone) ""))).lookup
      "isError" = some (PyVal.vbool true) :=
  ⟨rfl, rfl⟩

/-- Claim C3, amended: after a completed run the missing-result error is
returned exactly when the `result` binding is absent or bound to `None`
(`local_vars.get('result', None) is None`); in that case the full error
response is returned, carrying the captured stdout. -/
theorem c3_amended (blacklist : List String) (code : String) (sem : ScriptSem)
    (ns : Option PdValue) (out : String)
    (h : blacklist.find? (fun forbidden => strContains code forbidden) = none)
    (hce : sem.compileError = none)
    (hrn : sem.run = ExecOutcome.finishes ns out) :
    ((run_pandas_code blacklist code sem).lookup "message"
        = some (PyVal.vstr "No \x27result\x27 variable found in code")
      ↔ (ns = none ∨ ns = some PdValue.pynone))
    ∧ ((ns = none ∨ ns = some PdValue.pynone) →
        run_pandas_code blacklist code sem
          = PyVal.vdict
            [("content", PyVal.vlist []),
             ("isError", PyVal.vbool true),
             ("message", PyVal.vstr "No \x27result\x27 variable found in code"),
             ("output", PyVal.vstr out)]) := by
  unfold run_pandas_code
  rw [h, hce, hrn]
  cases ns with
  | none => exact ⟨iff_of_true rfl (Or.inl rfl), fun _ => rfl⟩
  | some r =>
      cases r with
      | pynone => exact ⟨iff_of_true rfl (Or.inr rfl), fun _ => rfl⟩
      | table f =>
          exact ⟨iff_of_false (fun hx => Option.noConfusion hx)
              (fun hx => hx.elim (fun h2 => Option.noConfusion h2)
                (fun h2 => PdValue.noConfusion (Option.some.inj h2))),
            fun hx => absurd hx
              (fun hx2 => hx2.elim (fun h2 => Option.noConfusion h2)
                (fun h2 => PdValue.noConfusion (Option.some.inj h2)))⟩
      | mapping es =>
          exact ⟨iff_of_false (fun hx => Option.noConfusion hx)
              (fun hx => hx.elim (fun h2 => Option.noConfusion h2)
                (fun h2 => PdValue.noConfusion (Option.some.inj h2))),
            fun hx => absurd hx
              (fun hx2 => hx2.elim (fun h2 => Option.noConfusion h2)
                (fun h2 => PdValue.noConfusion (Option.some.inj h2)))⟩
      | other s =>
          exact ⟨iff_of_false (fun hx => Option.noConfusion hx)
              (fun hx => hx.elim (fun h2 => Option.noConfusion h2)
                (fun h2 => PdValue.noConfusion (Option.some.inj h2))),
            fun hx => absurd hx
              (fun hx2 => hx2.elim (fun h2 => Option.noConfusion h2)
                (fun h2 => PdValue.noConfusion (Option.some.inj h2)))⟩

/-- Claim C3, witness for the amended theorem: a run that binds no `result`
satisfies the characterization and yields the missing-result response. -/
theorem c3_amended_witness :
    run_pandas_code DEFAULT_BLACKLIST "x = 1"
      (ScriptSem.mk none (ExecOutcome.finishes none "ok\n"))
      = PyVal.vdict
        [("content", PyVal.vlist []),
         ("isError", PyVal.vbool true),
         ("message", PyVal.vstr "No \x27result\x27 variable found in code"),
         ("output", PyVal.vstr "ok\n")] :=
  (c3_amended DEFAULT_BLACKLIST "x = 1"
    (ScriptSem.mk none (ExecOutcome.finishes none "ok\n")) none "ok\n"
    (by decide) rfl rfl).2 (Or.inl rfl)

/-! ## Claim C4 -/

/-- Claim C4, counterexample: the script "eval(x)\nimport os" contains two
configured forbidden patterns ("eval(" on line 1 and "import os" on line 2),
but the response records only the first-found pattern: the details name only
"eval(" and list only line 1; the "import os" violation appears nowhere in
the violation record, so the full violation list is not carried. -/
theorem c4_counterexample :
    strContains "eval(x)\nimport os" "import os" = true
    ∧ (run_pandas_code DEFAULT_BLACKLIST "eval(x)\nimport os"
        (ScriptSem.mk none (ExecOutcome.finishes none ""))).lookup "message"
        = some (PyVal.vstr "Forbidden operation detected: eval(")
    ∧ ((run_pandas_code DEFAULT_BLACKLIST "eval(x)\nimport os"
        (ScriptSem.mk none (ExecOutcome.finishes none ""))).lookup "details").bind
        (fun d => d.lookup "forbidden_operation") = some (PyVal.vstr "eval(")
    ∧ ((run_pandas_code DEFAULT_BLACKLIST "eval(x)\nimport os"
        (ScriptSem.mk none (ExecOutcome.finishes none ""))).lookup "details").bind
        (fun d => d.lookup "locations")
        = some (PyVal.vlist [PyVal.vstr "Line 1: eval(x)"]) :=
  ⟨by decide, rfl, rfl, rfl⟩

/-- Claim C4, amended: when the scan matches, the response names the
first-found pattern (in blacklist order) in its message, records every
1-indexed line containing that one pattern in the details' locations, and
includes the full configured pattern list; violations of other matching
patterns are not recorded. -/
theorem c4_amended (blacklist : List String) (code : String) (sem : ScriptSem)
    (p : String)
    (h : blacklist.find? (fun forbidden => strContains code forbidden) = some p) :
    p ∈ blacklist
    ∧ strContains code p = true
    ∧ (run_pandas_code blacklist code sem).lookup "error_type"
        = some (PyVal.vstr "SECURITY_VIOLATION")
    ∧ (run_pandas_code blacklist code sem).lookup "message"
        = some (PyVal.vstr ("Forbidden operation detected: " ++ p))
    ∧ ((run_pandas_code blacklist code sem).lookup "details").bind
        (fun d => d.lookup "forbidden_operation") = some (PyVal.vstr p)
    ∧ ((run_pandas_code blacklist code sem).lookup "details").bind
        (fun d => d.lookup "all_forbidden_operations")
        = some (PyVal.vlist (blacklist.map PyVal.vstr))
    ∧ ∃ locs : List String,
        ((run_pandas_code blacklist code sem).lookup "details").bind
          (fun d => d.lookup "locations")
          = some (PyVal.vlist (locs.map PyVal.vstr))
        ∧ (∀ q ∈ (pySplitLines code).enum, strContains q.2 p = true →
            ("Line " ++ toString (q.1 + 1) ++ ": " ++ pyStrip q.2) ∈ locs)
        ∧ (∀ s ∈ locs, ∃ q ∈ (pySplitLines code).enum,
            strContains q.2 p = true
            ∧ s = "Line " ++ toString (q.1 + 1) ++ ": " ++ pyStrip q.2) := by
  have hq := run_pandas_code_of_find_some blacklist code sem p h
  refine ⟨List.mem_of_find?_eq_some h, List.find?_some h, ?_, ?_, ?_, ?_, ?_⟩
  · rw [hq]; rfl
  · rw [hq]; rfl
  · rw [hq]; rfl
  · rw [hq]; rfl
  · refine ⟨(pySplitLines code).enum.filterMap (fun q =>
      if strContains q.2 p then
        some ("Line " ++ toString (q.1 + 1) ++ ": " ++ pyStrip q.2)
      else none), ?_, ?_, ?_⟩
    · rw [hq]; rfl
    · intro q hqmem hqc
      exact List.mem_filterMap.mpr ⟨q, hqmem, by rw [if_pos hqc]⟩
    · intro s hs
      obtain ⟨q, hqmem, hfs⟩ := List.mem_filterMap.mp hs
      by_cases hc : strContains q.2 p = true
      · rw [if_pos hc] at hfs
        exact ⟨q, hqmem, hc, (Option.some.inj hfs).symm⟩
      · rw [if_neg hc] at hfs
        exact Option.noConfusion hfs

/-- Claim C4, witness for the amended theorem at a script matching the
pattern "eval(" on its first line. -/
theorem c4_amended_witness :
    (run_pandas_code DEFAULT_BLACKLIST "eval(y)\nimport sys"
      (ScriptSem.mk none (ExecOutcome.finishes none ""))).lookup "message"
      = some (PyVal.vstr "Forbidden operation detected: eval(") :=
  (c4_amended DEFAULT_BLACKLIST "eval(y)\nimport sys"
    (ScriptSem.mk none (ExecOutcome.finishes none "")) "eval(" rfl).2.2.2.1

/-! ## Claim C5 -/

/-- Claim C5, counterexample: a runtime fault is converted into a response
whose error object carries message and traceback, but no error kind is
present anywhere in the response — neither at top level (the fault response
has no "isError", "message" or "error_type" entries there) nor inside the
nested "error" object. -/
theorem c5_counterexample :
    ((run_pandas_code DEFAULT_BLACKLIST "x = 1 / 0"
      (ScriptSem.mk none (ExecOutcome.raises "division by zero" "TBx" ""))).lookup
      "error").bind (fun e => e.lookup "message")
      = some (PyVal.vstr "division by zero")
    ∧ (run_pandas_code DEFAULT_BLACKLIST "x = 1 / 0"
      (ScriptSem.mk none (ExecOutcome.raises "division by zero" "TBx" ""))).lookup
      "error_type" = none
    ∧ (run_pandas_code DEFAULT_BLACKLIST "x = 1 / 0"
      (ScriptSem.mk none (ExecOutcome.raises "division by zero" "TBx" ""))).lookup
      "message" = none
    ∧ ((run_pandas_code DEFAULT_BLACKLIST "x = 1 / 0"
      (ScriptSem.mk none (ExecOutcome.raises "division by zero" "TBx" ""))).lookup
      "error").bind (fun e => e.lookup "error_type") = none
    ∧ (run_pandas_code DEFAULT_BLACKLIST "x = 1 / 0"
      (ScriptSem.mk none (ExecOutcome.raises "division by zero" "TBx" ""))).lookup
      "isError" = none :=
  ⟨rfl, rfl, rfl, rfl, rfl⟩

/-- Claim C5, amended: every compilation failure and every uncaught runtime
error of a script that passed the scan is converted into a structured
response that nests message, formatted traceback and captured output under
an "error" entry (with no kind tag); the harness returns this response
instead of propagating the exception — the embedded harness is a total
function. -/
theorem c5_amended (blacklist : List String) (code : String) (sem : ScriptSem)
    (h : blacklist.find? (fun forbidden => strContains code forbidden) = none) :
    (∀ m t, sem.compileError = some (m, t) →
      run_pandas_code blacklist code sem = PyVal.vdict
        [("content", PyVal.vlist []),
         ("error", PyVal.vdict
           [("isError", PyVal.vbool true),
            ("message", PyVal.vstr ("Code error: " ++ m)),
            ("traceback", PyVal.vstr t),
            ("output", PyVal.vstr "")])])
    ∧ (∀ m t o, sem.compileError = none → sem.run = ExecOutcome.raises m t o →
      run_pandas_code blacklist code sem = PyVal.vdict
        [("content", PyVal.vlist []),
         ("error", PyVal.vdict
           [("isError", PyVal.vbool true),
            ("message", PyVal.vstr m),
            ("traceback", PyVal.vstr t),
            ("output", PyVal.vstr o)])]) := by
  constructor
  · intro m t hce
    unfold run_pandas_code
    rw [h, hce]
  · intro m t o hce hrn
    unfold run_pandas_code
    rw [h, hce, hrn]

/-- Claim C5, witness for the amended theorem at a faulting script. -/
theorem c5_amended_witness :
    run_pandas_code DEFAULT_BLACKLIST "y = undefined_name"
      (ScriptSem.mk none
        (ExecOutcome.raises "name undefined_name is not defined" "TBn" "")) =
      PyVal.vdict
        [("content", PyVal.vlist []),
         ("error", PyVal.vdict
           [("isError", PyVal.vbool true),
            ("message", PyVal.vstr "name undefined_name is not defined"),
            ("traceback", PyVal.vstr "TBn"),
            ("output", PyVal.vstr "")])] :=
  (c5_amended DEFAULT_BLACKLIST "y = undefined_name"
    (ScriptSem.mk none
      (ExecOutcome.raises "name undefined_name is not defined" "TBn" ""))
    (by decide)).2 "name undefined_name is not defined" "TBn" "" rfl rfl

/-! ## Claim C6 -/

theorem run_pandas_code_table (blacklist : List String) (code : String)
    (sem : ScriptSem) (f : Frame) (out : String)
    (h : blacklist.find? (fun forbidden => strContains code forbidden) = none)
    (hce : sem.compileError = none)
    (hrn : sem.run = ExecOutcome.finishes (some (PdValue.table f)) out) :
    run_pandas_code blacklist code sem
      = PyVal.vdict
        [("content", PyVal.vlist
          [if f.memBytes > 100000000 then (f.head 100).toDict else f.toDict]),
         ("isError", PyVal.vbool false)] := by
  unfold run_pandas_code
  rw [h, hce, hrn]
  simp only [Option.getD_some]
  by_cases hm : f.memBytes > 100000000
  · rw [if_pos hm, if_pos hm]
    rfl
  · rw [if_neg hm, if_neg hm]
    rfl

/-- Claim C6, counterexample: a 102-row DataFrame whose footprint
(200 000 000 bytes) exceeds the 1e8-byte ceiling is truncated to its first
100 rows and the response reports success — but the response consists of
exactly the "content" and "isError" entries: no truncation note or metadata
of any kind is included. -/
theorem c6_counterexample :
    (Frame.mk ["a"] ((List.range 102).map (fun _ => ["x"])) 200000000).memBytes
        > 100000000
    ∧ run_pandas_code DEFAULT_BLACKLIST "result = df"
        (ScriptSem.mk none (ExecOutcome.finishes
          (some (PdValue.table
            (Frame.mk ["a"] ((List.range 102).map (fun _ => ["x"])) 200000000))) ""))
        = PyVal.vdict
          [("content", PyVal.vlist
            [((Frame.mk ["a"] ((List.range 102).map (fun _ => ["x"]))
                200000000).head 100).toDict]),
           ("isError", PyVal.vbool false)]
    ∧ ((Frame.mk ["a"] ((List.range 102).map (fun _ => ["x"]))
        200000000).head 100).rows.length = 100
    ∧ (run_pandas_code DEFAULT_BLACKLIST "result = df"
        (ScriptSem.mk none (ExecOutcome.finishes
          (some (PdValue.table
            (Frame.mk ["a"] ((List.range 102).map (fun _ => ["x"])) 200000000))) ""))).keys
        = ["content", "isError"] := by
  refine ⟨by decide, ?_, by decide, ?_⟩
  · exact run_pandas_code_table DEFAULT_BLACKLIST "result = df"
      (ScriptSem.mk none (ExecOutcome.finishes
        (some (PdValue.table
          (Frame.mk ["a"] ((List.range 102).map (fun _ => ["x"])) 200000000))) ""))
      (Frame.mk ["a"] ((List.range 102).map (fun _ => ["x"])) 200000000) ""
      (by decide) rfl rfl
  · rw [run_pandas_code_table DEFAULT_BLACKLIST "result = df"
      (ScriptSem.mk none (ExecOutcome.finishes
        (some (PdValue.table
          (Frame.mk ["a"] ((List.range 102).map (fun _ => ["x"])) 200000000))) ""))
      (Frame.mk ["a"] ((List.range 102).map (fun _ => ["x"])) 200000000) ""
      (by decide) rfl rfl]
    rfl

/-- Claim C6, amended: a tabular result whose footprint exceeds the
1e8-byte ceiling is truncated to its first 100 rows and the response still
reports success, but the response carries only the "content" and "isError"
entries — the truncation is not noted anywhere in the response. -/
theorem c6_amended (blacklist : List String) (code : String) (sem : ScriptSem)
    (f : Frame) (out : String)
    (h : blacklist.find? (fun forbidden => strContains code forbidden) = none)
    (hce : sem.compileError = none)
    (hrn : sem.run = ExecOutcome.finishes (some (PdValue.table f)) out)
    (hm : f.memBytes > 100000000) :
    run_pandas_code blacklist code sem
      = PyVal.vdict
        [("content", PyVal.vlist [(f.head 100).toDict]),
         ("isError", PyVal.vbool false)]
    ∧ (run_pandas_code blacklist code sem).keys = ["content", "isError"] := by
  have ht := run_pandas_code_table blacklist code sem f out h hce hrn
  rw [if_pos hm] at ht
  exact ⟨ht, by rw [ht]; rfl⟩

/-- Claim C6, witness for the amended theorem at a 3-row frame declared to
occupy 100 000 001 bytes. -/
theorem c6_amended_witness :
    run_pandas_code DEFAULT_BLACKLIST "result = big"
      (ScriptSem.mk none (ExecOutcome.finishes
        (some (PdValue.table (Frame.mk ["a"] [["1"], ["2"], ["3"]] 100000001))) ""))
      = PyVal.vdict
        [("content", PyVal.vlist
          [((Frame.mk ["a"] [["1"], ["2"], ["3"]] 100000001).head 100).toDict]),
         ("isError", PyVal.vbool false)] :=
  (c6_amended DEFAULT_BLACKLIST "result = big"
    (ScriptSem.mk none (ExecOutcome.finishes
      (some (PdValue.table (Frame.mk ["a"] [["1"], ["2"], ["3"]] 100000001))) ""))
    (Frame.mk ["a"] [["1"], ["2"], ["3"]] 100000001) ""
    (by decide) rfl rfl (by decide)).1

/-! ## Claim C7 -/

/-- Claim C7: the `run_pandas_code_tool` entry point never consults the
`ENABLE_CODE_EXECUTION` feature flag.  In an environment where the flag is
configured off the flag indeed evaluates to `false`, yet the call still
validates and executes the script and returns its success response — no
FEATURE_DISABLED (or any) error is produced.  This contradicts the
documented intent of the flag (the sibling chart-generation flag is
enforced by `generate_chartjs`). -/
theorem c7_flag_not_consulted :
    ENABLE_CODE_EXECUTION
        (fun k => if k = "PANDAS_MCP_ENABLE_CODE_EXECUTION"
          then some "false" else none) = false
    ∧ run_pandas_code_tool
        (BLACKLIST (fun k => if k = "PANDAS_MCP_ENABLE_CODE_EXECUTION"
          then some "false" else none))
        "result = 1"
        (ScriptSem.mk none (ExecOutcome.finishes (some (PdValue.other "1")) ""))
        = PyVal.vdict [("content", PyVal.vlist [PyVal.vstr "1"]),
                       ("isError", PyVal.vbool false)]
    ∧ (run_pandas_code_tool
        (BLACKLIST (fun k => if k = "PANDAS_MCP_ENABLE_CODE_EXECUTION"
          then some "false" else none))
        "result = 1"
        (ScriptSem.mk none (ExecOutcome.finishes (some (PdValue.other "1")) ""))).lookup
        "error_type" = none :=
  ⟨rfl, rfl, rfl⟩

/-! ## Claim C8 -/

/-- Claim C8: the compile-error branch returns a third, ad-hoc shape — its
"isError" flag and message live only inside a nested "error" object, so the
response is neither the canonical Success shape (isError false) nor the
canonical Error shape (top-level isError true with a message).  The
repository's own test (`test_syntax_error_handling`) expects a top-level
"isError" on this path. -/
theorem c8_third_shape :
    (run_pandas_code DEFAULT_BLACKLIST "result = (1 +"
      (ScriptSem.mk (some ("invalid syntax", "TB8"))
        (ExecOutcome.finishes none ""))).lookup "isError" = none
    ∧ (run_pandas_code DEFAULT_BLACKLIST "result = (1 +"
      (ScriptSem.mk (some ("invalid syntax", "TB8"))
        (ExecOutcome.finishes none ""))).lookup "message" = none
    ∧ (run_pandas_code DEFAULT_BLACKLIST "result = (1 +"
      (ScriptSem.mk (some ("invalid syntax", "TB8"))
        (ExecOutcome.finishes none ""))).lookup "error"
        = some (PyVal.vdict
          [("isError", PyVal.vbool true),
           ("message", PyVal.vstr "Code error: invalid syntax"),
           ("traceback", PyVal.vstr "TB8"),
           ("output", PyVal.vstr "")])
    ∧ (run_pandas_code DEFAULT_BLACKLIST "result = (1 +"
      (ScriptSem.mk (some ("invalid syntax", "TB8"))
        (ExecOutcome.finishes none ""))).keys = ["content", "error"] :=
  ⟨rfl, rfl, rfl, rfl⟩

/-! ## Claim C9 -/

/-- Claim C9, counterexample: the whitespace-only script "   " is nonempty
and consists only of whitespace characters, compiles as a blank program, and
`validate_pandas_code` reports it Valid instead of failing with the
EmptyInput error. -/
theorem c9_counterexample :
    "   " ≠ ""
    ∧ "   ".data.all Char.isWhitespace = true
    ∧ validate_pandas_code "   " (ScriptSem.mk none (ExecOutcome.finishes none ""))
        = PyVal.vdict [("valid", PyVal.vbool true)] :=
  ⟨by decide, by decide, rfl⟩

/-- Claim C9, amended: only the genuinely empty script fails the emptiness
check (`if not code`) with the EmptyInput error; any nonempty script — a
whitespace-only one included — passes it, and when it is within the length
bound and compiles (a whitespace-only program is blank and does compile),
validation reports Valid. -/
theorem c9_amended (code : String) (sem : ScriptSem) :
    (code = "" →
      validate_pandas_code code sem
        = PyVal.vdict [("valid", PyVal.vbool false),
            ("error", PyVal.vstr "Code cannot be empty")])
    ∧ (code ≠ "" → ¬ code.length > 100000 → sem.compileError = none →
      validate_pandas_code code sem = PyVal.vdict [("valid", PyVal.vbool true)]) := by
  constructor
  · intro hc
    subst hc
    rfl
  · intro hc hl hce
    unfold validate_pandas_code
    rw [if_neg hc, if_neg hl, hce]

/-- Claim C9, witness for the amended theorem at the empty script and at the
whitespace-only script "   ". -/
theorem c9_amended_witness :
    validate_pandas_code "" (ScriptSem.mk none (ExecOutcome.finishes none ""))
        = PyVal.vdict [("valid", PyVal.vbool false),
            ("error", PyVal.vstr "Code cannot be empty")]
    ∧ validate_pandas_code "   " (ScriptSem.mk none (ExecOutcome.finishes none ""))
        = PyVal.vdict [("valid", PyVal.vbool true)] :=
  ⟨(c9_amended "" (ScriptSem.mk none (ExecOutcome.finishes none ""))).1 rfl,
   (c9_amended "   " (ScriptSem.mk none (ExecOutcome.finishes none ""))).2
     (by decide) (by decide) rfl⟩
